import Mathlib

unseal Rat.add Rat.mul Rat.sub Rat.inv

/-!
Shallow embedding of the battle engine of the Naruto chat-bot repository
(`naruto_bot/battle.py`, `naruto_bot/game_data.py`,
`naruto_bot/handlers/battle_handlers.py`).

Python floats are modelled as exact rationals (`ℚ`); all multipliers that
occur in the game data (1.5, 0.75, 0.5, 1.15, 1.8, stamina fractions) are
small rationals, and `int(...)` truncation is modelled by `pyInt` below.
Python machine integers (user ids, HP, chakra) are modelled as `ℤ`;
stats that are always non-negative in the data model (level, strength,
speed, intelligence, stamina) as `ℕ`.  The `random.random()` draw that
decides a critical hit is externalised: the Boolean outcome of the draw is
passed as an explicit argument (`critRoll`).  Purely cosmetic data
(icons, animation frames, hand-sign lists, rendered message text) and
wall-clock timestamps are omitted from the embedding; no claim refers to
them.

Note on the source text: in `naruto_bot/battle.py` the damage-application
statement (line 203) carries a stray dedent to column 0, which would make
the module unimportable as written; the duplicate of the same function in
the top-level `battle.py` has the identical statement correctly indented
inside the plain-damage else-branch, and the embedding follows that
well-formed version.
-/

namespace NarutoBot

/-- Python `int(q)` on a rational: truncation toward zero, exactly the
conversion the damage formula applies as its final step. -/
def pyInt (q : ℚ) : ℤ :=
  if 0 ≤ q.num then ((q.num.toNat / q.den : ℕ) : ℤ)
  else -(((-q.num).toNat / q.den : ℕ) : ℤ)

/-- The five chakra natures plus the `'none'` element used for
non-elemental jutsu and for missing village data
(`game_data.py`, `ELEMENT_MATRIX` keys). -/
inductive Element
  | fire
  | water
  | wind
  | earth
  | lightning
  | none
deriving DecidableEq

/-- The five hidden villages (`game_data.py`, `VILLAGES` keys). -/
inductive Village
  | konoha
  | suna
  | kiri
  | kumo
  | iwa
deriving DecidableEq

/-- The battle-relevant fields of one `VILLAGES` entry
(`name`, `icon` and `bonus_text` are cosmetic and omitted). -/
structure VillageData where
  element_bonus : Element
  bonus_percent : ℚ
deriving DecidableEq

/-- `game_data.VILLAGES`: every village grants a 15% affinity bonus on its
own element. -/
def VILLAGES : Village → VillageData
  | .konoha => ⟨.fire, 15/100⟩
  | .suna => ⟨.wind, 15/100⟩
  | .kiri => ⟨.water, 15/100⟩
  | .kumo => ⟨.lightning, 15/100⟩
  | .iwa => ⟨.earth, 15/100⟩

/-- `game_data.ELEMENT_MATRIX`: multiplier keyed by
(jutsu element, defender village element). -/
def ELEMENT_MATRIX : Element → Element → ℚ
  | .fire, .wind => 3/2
  | .fire, .earth => 3/4
  | .fire, .water => 1/2
  | .fire, _ => 1
  | .water, .fire => 3/2
  | .water, .lightning => 1/2
  | .water, .wind => 3/4
  | .water, _ => 1
  | .wind, .lightning => 3/2
  | .wind, .earth => 1/2
  | .wind, .fire => 3/4
  | .wind, _ => 1
  | .earth, .lightning => 3/2
  | .earth, .water => 3/4
  | .earth, .wind => 3/2
  | .earth, _ => 1
  | .lightning, .water => 3/2
  | .lightning, .earth => 1/2
  | .lightning, .wind => 3/4
  | .lightning, _ => 1
  | .none, _ => 1

/-- The special-effect tags occurring as `'effect'` values in
`JUTSU_LIBRARY`. -/
inductive Effect
  | heal
  | evasion_up
  | stun
  | accuracy_down
  | defense_up
  | dodge
  | distract
deriving DecidableEq

/-- One `JUTSU_LIBRARY` entry.  `signs` (hand-sign sequence) is cosmetic
battle-wise and omitted; a missing `'effect'` key is `Option.none`. -/
structure Jutsu where
  name : String
  power : ℕ
  chakra_cost : ℕ
  element : Element
  level_required : ℕ
  discovered : Bool
  effect : Option Effect := Option.none
deriving DecidableEq

/-- `game_data.JUTSU_LIBRARY` as a partial map from jutsu key to entry. -/
def JUTSU_LIBRARY : String → Option Jutsu
  | "fireball" => some { name := "Fireball Jutsu", power := 45, chakra_cost := 25, element := .fire, level_required := 5, discovered := true }
  | "great_fireball" => some { name := "Great Fireball Jutsu", power := 70, chakra_cost := 40, element := .fire, level_required := 12, discovered := true }
  | "fire_phoenix" => some { name := "Phoenix Flower Jutsu", power := 95, chakra_cost := 60, element := .fire, level_required := 25, discovered := false }
  | "dragon_flame" => some { name := "Dragon Flame Jutsu", power := 80, chakra_cost := 50, element := .fire, level_required := 20, discovered := false }
  | "ash_pile_burning" => some { name := "Ash Pile Burning", power := 110, chakra_cost := 70, element := .fire, level_required := 30, discovered := false }
  | "flame_bullet" => some { name := "Flame Bullet", power := 30, chakra_cost := 15, element := .fire, level_required := 1, discovered := true }
  | "water_dragon" => some { name := "Water Dragon Jutsu", power := 65, chakra_cost := 35, element := .water, level_required := 15, discovered := true }
  | "water_shark_bomb" => some { name := "Water Shark Bomb", power := 100, chakra_cost := 65, element := .water, level_required := 28, discovered := false }
  | "hidden_mist" => some { name := "Hidden Mist Jutsu", power := 0, chakra_cost := 40, element := .water, level_required := 18, discovered := false, effect := some .evasion_up }
  | "water_vortex" => some { name := "Water Vortex Jutsu", power := 75, chakra_cost := 45, element := .water, level_required := 22, discovered := false }
  | "water_prison" => some { name := "Water Prison Jutsu", power := 0, chakra_cost := 55, element := .water, level_required := 24, discovered := false, effect := some .stun }
  | "water_bullet" => some { name := "Water Bullet", power := 30, chakra_cost := 15, element := .water, level_required := 1, discovered := true }
  | "wind_scythe" => some { name := "Wind Scythe Jutsu", power := 50, chakra_cost := 30, element := .wind, level_required := 8, discovered := true }
  | "great_breakthrough" => some { name := "Great Breakthrough", power := 70, chakra_cost := 40, element := .wind, level_required := 14, discovered := true }
  | "vacuum_blade" => some { name := "Vacuum Blade", power := 105, chakra_cost := 65, element := .wind, level_required := 27, discovered := false }
  | "wind_gale" => some { name := "Gale Palm", power := 60, chakra_cost := 35, element := .wind, level_required := 16, discovered := false }
  | "air_bullet" => some { name := "Air Bullet", power := 30, chakra_cost := 15, element := .wind, level_required := 1, discovered := true }
  | "dust_cloud" => some { name := "Dust Cloud Jutsu", power := 0, chakra_cost := 30, element := .wind, level_required := 10, discovered := false, effect := some .accuracy_down }
  | "lightning_bolt" => some { name := "Lightning Bolt", power := 55, chakra_cost := 30, element := .lightning, level_required := 9, discovered := true }
  | "lightning_panther" => some { name := "Lightning Panther", power := 115, chakra_cost := 70, element := .lightning, level_required := 30, discovered := false }
  | "chidori_stream" => some { name := "Chidori Stream", power := 85, chakra_cost := 55, element := .lightning, level_required := 24, discovered := false }
  | "lightning_snake" => some { name := "Lightning Snake", power := 70, chakra_cost := 40, element := .lightning, level_required := 17, discovered := false }
  | "lightning_strike" => some { name := "Lightning Strike", power := 30, chakra_cost := 15, element := .lightning, level_required := 1, discovered := true }
  | "lightning_armor" => some { name := "Lightning Armor", power := 0, chakra_cost := 50, element := .lightning, level_required := 20, discovered := false, effect := some .defense_up }
  | "earth_wall" => some { name := "Earth Style Wall", power := 0, chakra_cost := 35, element := .earth, level_required := 10, discovered := true, effect := some .defense_up }
  | "mud_river" => some { name := "Mud River", power := 60, chakra_cost := 35, element := .earth, level_required := 13, discovered := true }
  | "rock_golem" => some { name := "Rock Golem Jutsu", power := 120, chakra_cost := 80, element := .earth, level_required := 32, discovered := false }
  | "earth_dragon_bomb" => some { name := "Earth Dragon Bomb", power := 90, chakra_cost := 55, element := .earth, level_required := 26, discovered := false }
  | "rock_slide" => some { name := "Rock Slide", power := 75, chakra_cost := 45, element := .earth, level_required := 19, discovered := false }
  | "stone_bullet" => some { name := "Stone Bullet", power := 30, chakra_cost := 15, element := .earth, level_required := 1, discovered := true }
  | "substitution" => some { name := "Substitution Jutsu", power := 0, chakra_cost := 20, element := .none, level_required := 3, discovered := true, effect := some .dodge }
  | "clone_jutsu" => some { name := "Clone Jutsu", power := 0, chakra_cost := 15, element := .none, level_required := 1, discovered := true, effect := some .distract }
  | "chakra_heal" => some { name := "Chakra Heal", power := 50, chakra_cost := 30, element := .none, level_required := 8, discovered := true, effect := some .heal }
  | _ => Option.none

/-- The keys of `JUTSU_LIBRARY`, in source order. -/
def JUTSU_KEYS : List String :=
  ["fireball", "great_fireball", "fire_phoenix", "dragon_flame",
   "ash_pile_burning", "flame_bullet", "water_dragon", "water_shark_bomb",
   "hidden_mist", "water_vortex", "water_prison", "water_bullet",
   "wind_scythe", "great_breakthrough", "vacuum_blade", "wind_gale",
   "air_bullet", "dust_cloud", "lightning_bolt", "lightning_panther",
   "chidori_stream", "lightning_snake", "lightning_strike",
   "lightning_armor", "earth_wall", "mud_river", "rock_golem",
   "earth_dragon_bomb", "rock_slide", "stone_bullet", "substitution",
   "clone_jutsu", "chakra_heal"]

/-- The attacker/defender view `calculate_damage` reads: the fields of the
throwaway `TempPlayer` objects built in `battle_animation_flow` from the
battle snapshots.  `village` is `Option.none` when the stored village
string is not a `VILLAGES` key (the `VILLAGES.get(..., {})` miss case). -/
structure TempPlayer where
  level : ℕ
  intelligence : ℕ
  speed : ℕ
  stamina : ℕ
  village : Option Village
deriving DecidableEq

/-- `TempPlayer.get_village_bonus` (`battle.py`): looks the village up in
`VILLAGES`; on a miss returns `('none', 0)`. -/
def TempPlayer.get_village_bonus (p : TempPlayer) : Element × ℚ :=
  match p.village with
  | some v => ((VILLAGES v).element_bonus, (VILLAGES v).bonus_percent)
  | Option.none => (Element.none, 0)

/-- The pre-override damage value of `calculate_damage` (`battle.py`,
steps 1-6): base damage, village affinity boost, elemental matchup
multiplier, critical multiplier, stamina mitigation, truncated to `int`.
The outcome of the critical random draw is the argument `crit`. -/
def raw_damage (attacker defender : TempPlayer) (jutsu : Jutsu) (crit : Bool) : ℤ :=
  let base0 : ℚ :=
    (jutsu.power : ℚ) + (attacker.level : ℚ) * 2 + (attacker.intelligence : ℚ) * (3/2)
  let vb := attacker.get_village_bonus
  let base_damage : ℚ :=
    if vb.1 = jutsu.element then base0 * (1 + vb.2) else base0
  let defender_element : Element :=
    match defender.village with
    | some v => (VILLAGES v).element_bonus
    | Option.none => Element.none
  let element_bonus : ℚ := ELEMENT_MATRIX jutsu.element defender_element
  let critical_multiplier : ℚ := if crit then 9/5 else 1
  let defense_reduction : ℚ :=
    1 - (defender.stamina : ℚ) / ((defender.stamina : ℚ) + 100)
  pyInt (base_damage * element_bonus * critical_multiplier * defense_reduction)

/-- Whether the defender's elemental multiplier counts as a bonus in the
returned tuple (`element_bonus > 1.2`). -/
def elem_bonus_flag (jutsu : Jutsu) (defender : TempPlayer) : Bool :=
  let defender_element : Element :=
    match defender.village with
    | some v => (VILLAGES v).element_bonus
    | Option.none => Element.none
  decide (ELEMENT_MATRIX jutsu.element defender_element > 6/5)

/-- `calculate_damage` (`battle.py`): returns
`(final_damage, is_critical, is_elemental_bonus, effect)`.  The
`random.random() < critical_chance` draw is externalised as `crit`; an
unknown jutsu key returns the zero/false tuple (the code's `""` falsy
effect is the `Option.none` effect here). -/
def calculate_damage (attacker defender : TempPlayer) (jutsu_key : String)
    (crit : Bool) : ℤ × Bool × Bool × Option Effect :=
  match JUTSU_LIBRARY jutsu_key with
  | Option.none => (0, false, false, Option.none)
  | some jutsu =>
    let final0 := raw_damage attacker defender jutsu crit
    let final_damage : ℤ :=
      match jutsu.effect with
      | some Effect.heal => -|(jutsu.power : ℤ)|
      | some Effect.evasion_up => 0
      | some Effect.defense_up => 0
      | some Effect.stun => 0
      | some Effect.accuracy_down => 0
      | _ => final0
    (final_damage, crit, elem_bonus_flag jutsu defender, jutsu.effect)

/-- Python dict assignment `m[k] = v` on a string-keyed association list:
replace the binding in place if the key is present, else append it. -/
def dictSet : List (String × ℕ) → String → ℕ → List (String × ℕ)
  | [], k, v => [(k, v)]
  | a :: t, k, v => if a.1 = k then (k, v) :: t else a :: dictSet t k v

/-- The combat-relevant fields of a `models.Player` profile record
(`models.py`): the authoritative persistent store entry read and written
by the handlers.  Cooldowns, exp, ryo and mission bookkeeping are outside
the battle core and omitted. -/
structure Profile where
  user_id : ℤ
  username : String
  level : ℕ
  current_hp : ℤ
  max_hp : ℤ
  current_chakra : ℤ
  max_chakra : ℤ
  strength : ℕ
  speed : ℕ
  intelligence : ℕ
  stamina : ℕ
  village : Option Village
  known_jutsus : List String
deriving DecidableEq

/-- One entry of `Battle.players`: the snapshot dict produced by
`Battle._serialize_player` (`battle.py`). -/
structure Snapshot where
  username : String
  level : ℕ
  current_hp : ℤ
  max_hp : ℤ
  current_chakra : ℤ
  max_chakra : ℤ
  strength : ℕ
  speed : ℕ
  intelligence : ℕ
  stamina : ℕ
  village : Option Village
  known_jutsus : List String
  battle_effects : List (String × ℕ)
deriving DecidableEq

/-- `Battle._serialize_player`: snapshot a player's data at battle start;
`battle_effects` starts empty. -/
def serialize_player (p : Profile) : Snapshot :=
  { username := p.username, level := p.level, current_hp := p.current_hp,
    max_hp := p.max_hp, current_chakra := p.current_chakra,
    max_chakra := p.max_chakra, strength := p.strength, speed := p.speed,
    intelligence := p.intelligence, stamina := p.stamina,
    village := p.village, known_jutsus := p.known_jutsus,
    battle_effects := [] }

/-- The `TempPlayer` view `battle_animation_flow` builds from a snapshot
for the damage calculation. -/
def Snapshot.toTemp (s : Snapshot) : TempPlayer :=
  { level := s.level, intelligence := s.intelligence, speed := s.speed,
    stamina := s.stamina, village := s.village }

/-- The `Battle` state object (`battle.py`).  The two snapshots of the
`players` dict are stored as `p1`/`p2`, keyed by `player1_id`/`player2_id`.
The transcript `log`, the `battle_id` string, the chat/message binding and
the `last_action_time` timestamp are not read by any battle-logic branch
and are omitted. -/
structure Battle where
  player1_id : ℤ
  player2_id : ℤ
  turn : ℤ
  turn_count : ℕ
  p1 : Snapshot
  p2 : Snapshot
deriving DecidableEq

/-- `Battle.__init__`: the first turn goes to `player1` when
`player1.speed >= player2.speed`, else to `player2`; `turn_count` starts
at 1. -/
def Battle.init (player1 player2 : Profile) : Battle :=
  { player1_id := player1.user_id, player2_id := player2.user_id,
    turn := if player1.speed ≥ player2.speed then player1.user_id else player2.user_id,
    turn_count := 1,
    p1 := serialize_player player1, p2 := serialize_player player2 }

/-- `Battle.get_player_data`: `self.players[user_id]` (total here; every
caller passes a participant id). -/
def Battle.get_player_data (b : Battle) (uid : ℤ) : Snapshot :=
  if uid = b.player1_id then b.p1 else b.p2

/-- `Battle.get_opponent_data`: the snapshot of
`player2_id if user_id == player1_id else player1_id`. -/
def Battle.get_opponent_data (b : Battle) (uid : ℤ) : Snapshot :=
  if uid = b.player1_id then b.p2 else b.p1

/-- Write back the snapshot that `get_player_data uid` addresses
(in Python the snapshot dict is mutated in place through the alias). -/
def Battle.set_player_data (b : Battle) (uid : ℤ) (s : Snapshot) : Battle :=
  if uid = b.player1_id then { b with p1 := s } else { b with p2 := s }

/-- Write back the snapshot that `get_opponent_data uid` addresses. -/
def Battle.set_opponent_data (b : Battle) (uid : ℤ) (s : Snapshot) : Battle :=
  if uid = b.player1_id then { b with p2 := s } else { b with p1 := s }

/-- `Battle.switch_turn`: flip `turn` between the two participant ids and
increment `turn_count` (the `last_action_time` stamp is omitted). -/
def Battle.switch_turn (b : Battle) : Battle :=
  { b with
    turn := if b.turn = b.player1_id then b.player2_id else b.player1_id,
    turn_count := b.turn_count + 1 }

/-- The two snapshot resource fields the handlers write through
`update_player_resource`. -/
inductive ResField
  | current_hp
  | current_chakra
deriving DecidableEq

/-- Store a value into the named resource field of a snapshot. -/
def Snapshot.setRes (s : Snapshot) (f : ResField) (v : ℤ) : Snapshot :=
  match f with
  | .current_hp => { s with current_hp := v }
  | .current_chakra => { s with current_chakra := v }

/-- `Battle.update_player_resource` (`battle.py`): if `user_id` is a key of
`players` (and the resource field exists, which both modelled fields do),
store `value` into that snapshot field; otherwise log a warning and leave
the state unchanged.  The write is verbatim: no clamping against 0 or the
max value. -/
def Battle.update_player_resource (b : Battle) (uid : ℤ) (f : ResField) (v : ℤ) : Battle :=
  if uid = b.player1_id then { b with p1 := b.p1.setRes f v }
  else if uid = b.player2_id then { b with p2 := b.p2.setRes f v }
  else b

/-- The state-relevant part of `battle_animation_flow` (`battle.py`,
steps 5-8; the awaited animation steps are presentation only): compute the
damage tuple from the two snapshots, apply the heal / `defense_up` /
other-effect / plain-damage branch to the battle state, and determine the
winner.  Returns the updated battle and `winner_id`.  The `crit` argument
is the externalised critical draw. -/
def battle_animation_flow (b : Battle) (attacker_id : ℤ) (jutsu_key : String)
    (crit : Bool) : Battle × Option ℤ :=
  let attacker_data := b.get_player_data attacker_id
  let defender_data := b.get_opponent_data attacker_id
  let r := calculate_damage attacker_data.toTemp defender_data.toTemp jutsu_key crit
  let damage := r.1
  let effect := r.2.2.2
  let opponent_id := if attacker_id = b.player1_id then b.player2_id else b.player1_id
  let b' :=
    match effect with
    | some Effect.heal =>
      let heal_amount : ℤ := |damage|
      b.set_player_data attacker_id
        { attacker_data with
          current_hp := min attacker_data.max_hp (attacker_data.current_hp + heal_amount) }
    | some Effect.defense_up =>
      b.set_player_data attacker_id
        { attacker_data with
          battle_effects := dictSet attacker_data.battle_effects "defense_up" 3 }
    | some _ => b
    | Option.none =>
      b.set_opponent_data attacker_id
        { defender_data with
          current_hp := max 0 (defender_data.current_hp - damage) }
  let winner_id : Option ℤ :=
    if (b'.get_opponent_data attacker_id).current_hp ≤ 0 then some attacker_id
    else if (b'.get_player_data attacker_id).current_hp ≤ 0 then some opponent_id
    else Option.none
  (b', winner_id)

/-- The failure modes of a `/use` turn submission
(`handlers/battle_handlers.py`, in handler order).  `ExecFailed` is the
catch-all for an exception raised inside `battle_animation_flow`. -/
inductive TurnError
  | NoPlayerData
  | NotInBattle
  | NotYourTurn
  | UnknownJutsu
  | JutsuNotLearned
  | InsufficientResource
  | OpponentMissing
  | ExecFailed
deriving DecidableEq

/-- The outcome a `/use` submission reports: a rejection/failure, or a
completed turn with the optional `winner_id`. -/
inductive TurnResult
  | err : TurnError → TurnResult
  | ok : Option ℤ → TurnResult
deriving DecidableEq

/-- The store-backed state a `/use` submission touches: the profile store
rows and the externalised battle state.  `battleStore = Option.none`
models both "no battle id mapped for the user" and an expired/deleted
battle blob; the battle-lock records are maintained in lockstep with it
and are not modelled separately. -/
structure GameState where
  profiles : List Profile
  battleStore : Option Battle
deriving DecidableEq

/-- `get_player`: look a profile up by user id. -/
def GameState.getProfile (st : GameState) (uid : ℤ) : Option Profile :=
  st.profiles.find? (fun p => p.user_id == uid)

/-- `player.save()`: write a profile row back to the store. -/
def GameState.saveProfile (st : GameState) (p : Profile) : GameState :=
  { st with profiles := st.profiles.map (fun q => if q.user_id == p.user_id then p else q) }

/-- The state-and-outcome core of `use_jutsu_handler`
(`handlers/battle_handlers.py`): precondition checks in handler order
(profile exists, battle exists, actor holds the turn, jutsu key known to
the library, jutsu learned, chakra sufficient, opponent profile loadable),
then chakra deduction persisted to the profile store and mirrored into the
battle snapshot, then `battle_animation_flow`; a winner ends the battle
(cache entries deleted by `_end_battle`), otherwise `switch_turn` runs and
the battle is re-persisted.  `animRaises = true` models an exception
raised inside `battle_animation_flow`: the handler then calls
`_end_battle` with no winner — after the chakra deduction was already
saved.  The jutsu is addressed by its library key (`get_jutsu_by_name`
name resolution is outside the battle core).  Returns the new store state
and either a `TurnResult`. -/
def use_jutsu (st : GameState) (uid : ℤ) (jutsu_key : String) (crit : Bool)
    (animRaises : Bool) : GameState × TurnResult :=
  match st.getProfile uid with
  | Option.none => (st, .err .NoPlayerData)
  | some player =>
    match st.battleStore with
    | Option.none => (st, .err .NotInBattle)
    | some battle =>
      if battle.turn ≠ uid then (st, .err .NotYourTurn)
      else
        match JUTSU_LIBRARY jutsu_key with
        | Option.none => (st, .err .UnknownJutsu)
        | some jutsu =>
          if jutsu_key ∉ player.known_jutsus then (st, .err .JutsuNotLearned)
          else if player.current_chakra < (jutsu.chakra_cost : ℤ) then
            (st, .err .InsufficientResource)
          else
            let opponent_id := if uid = battle.player1_id then battle.player2_id else battle.player1_id
            match st.getProfile opponent_id with
            | Option.none => ({ st with battleStore := Option.none }, .err .OpponentMissing)
            | some _ =>
              let player' := { player with current_chakra := player.current_chakra - (jutsu.chakra_cost : ℤ) }
              let st1 := st.saveProfile player'
              let battle1 := battle.update_player_resource uid ResField.current_chakra player'.current_chakra
              if animRaises then
                ({ st1 with battleStore := Option.none }, .err .ExecFailed)
              else
                let fr := battle_animation_flow battle1 uid jutsu_key crit
                match fr.2 with
                | some w => ({ st1 with battleStore := Option.none }, .ok (some w))
                | Option.none =>
                  ({ st1 with battleStore := some fr.1.switch_turn }, .ok Option.none)

/-- Run a list of `(actor, jutsu key, crit draw)` turn submissions in
sequence; `Option.none` as soon as one submission fails or produces a
winner ("N consecutive successful turn submissions without a winner"). -/
def runTurns : GameState → List (ℤ × String × Bool) → Option GameState
  | st, [] => some st
  | st, m :: ms =>
    match use_jutsu st m.1 m.2.1 m.2.2 false with
    | (st', .ok Option.none) => runTurns st' ms
    | _ => Option.none

/-! Concrete fixtures used by witnesses and counterexamples. -/

/-- A Konoha player profile used as the challenger in concrete runs. -/
def exProf1 : Profile :=
  { user_id := 1, username := "A", level := 5, current_hp := 1000,
    max_hp := 1000, current_chakra := 100, max_chakra := 100, strength := 5,
    speed := 10, intelligence := 10, stamina := 10, village := some .konoha,
    known_jutsus := ["fireball", "chakra_heal", "earth_wall", "hidden_mist", "substitution"] }

/-- A Suna player profile used as the opponent in concrete runs. -/
def exProf2 : Profile :=
  { user_id := 2, username := "B", level := 5, current_hp := 1000,
    max_hp := 1000, current_chakra := 100, max_chakra := 100, strength := 5,
    speed := 5, intelligence := 10, stamina := 10, village := some .suna,
    known_jutsus := ["water_bullet"] }

/-- A freshly started battle store state for the two fixture players. -/
def exSt : GameState :=
  { profiles := [exProf1, exProf2], battleStore := some (Battle.init exProf1 exProf2) }

/-- Two successful, winner-free turn submissions on `exSt`. -/
def exMoves : List (ℤ × String × Bool) :=
  [(1, "fireball", false), (2, "water_bullet", false)]

/-- The state after running `exMoves` on `exSt`. -/
def exSt2 : GameState :=
  match runTurns exSt exMoves with
  | some s => s
  | Option.none => { profiles := [], battleStore := Option.none }

/-- The state after the single first move of `exMoves`. -/
def exSt1 : GameState := (use_jutsu exSt 1 "fireball" false false).1

/-- The battle stored in `exSt1`. -/
def exBattle1 : Battle :=
  match exSt1.battleStore with
  | some x => x
  | Option.none => Battle.init exProf1 exProf2

/-- `exSt` with the challenger's chakra lowered below `fireball`'s cost. -/
def exStLowChakra : GameState :=
  { profiles := [{ exProf1 with current_chakra := 20 }, exProf2],
    battleStore := some (Battle.init exProf1 exProf2) }

/-! Helper lemmas about `pyInt` and the damage formula. -/

theorem pyInt_nonneg {q : ℚ} (h : 0 ≤ q) : 0 ≤ pyInt q := by
  unfold pyInt
  rw [if_pos (Rat.num_nonneg.mpr h)]
  exact Int.ofNat_nonneg _

theorem pyInt_eq_floor {q : ℚ} (h : 0 ≤ q) : pyInt q = ⌊q⌋ := by
  have hn : 0 ≤ q.num := Rat.num_nonneg.mpr h
  unfold pyInt
  rw [if_pos hn, Rat.floor_def, Int.ofNat_tdiv, Int.toNat_of_nonneg hn,
    Int.tdiv_eq_ediv hn (Int.ofNat_nonneg _)]

theorem pyInt_one_le {q : ℚ} (h : 1 ≤ q) : 1 ≤ pyInt q := by
  rw [pyInt_eq_floor (le_trans zero_le_one h)]
  exact Int.le_floor.mpr (by exact_mod_cast h)

theorem ELEMENT_MATRIX_nonneg (a b : Element) : 0 ≤ ELEMENT_MATRIX a b := by
  cases a <;> cases b <;> decide

theorem ELEMENT_MATRIX_none_left (e : Element) : ELEMENT_MATRIX Element.none e = 1 := by
  cases e <;> rfl

theorem village_bonus_nonneg (p : TempPlayer) : 0 ≤ p.get_village_bonus.2 := by
  unfold TempPlayer.get_village_bonus
  rcases p.village with _ | v
  · norm_num
  · cases v <;> decide

theorem raw_damage_nonneg (a d : TempPlayer) (j : Jutsu) (c : Bool) :
    0 ≤ raw_damage a d j c := by
  unfold raw_damage
  refine pyInt_nonneg (mul_nonneg (mul_nonneg (mul_nonneg ?_ ?_) ?_) ?_)
  · have hb : (0:ℚ) ≤ (j.power : ℚ) + (a.level : ℚ) * 2 + (a.intelligence : ℚ) * (3/2) := by
      positivity
    have hv := village_bonus_nonneg a
    split
    · exact mul_nonneg hb (by linarith)
    · exact hb
  · exact ELEMENT_MATRIX_nonneg _ _
  · split <;> norm_num
  · rw [sub_nonneg]
    exact div_le_one_of_le₀ (by linarith [Nat.cast_nonneg (α := ℚ) d.stamina]) (by positivity)

theorem raw_damage_one_le (a d : TempPlayer) (j : Jutsu) (c : Bool)
    (helem : j.element = Element.none) (hlvl : 1 ≤ a.level) (hsta : d.stamina ≤ 100) :
    1 ≤ raw_damage a d j c := by
  simp only [raw_damage]
  rw [helem, ELEMENT_MATRIX_none_left]
  apply pyInt_one_le
  have hp0 : (0:ℚ) ≤ (j.power : ℚ) := Nat.cast_nonneg _
  have hi0 : (0:ℚ) ≤ (a.intelligence : ℚ) := Nat.cast_nonneg _
  have hl1 : (1:ℚ) ≤ (a.level : ℚ) := by exact_mod_cast hlvl
  have hbase : (2:ℚ) ≤ (j.power : ℚ) + (a.level : ℚ) * 2 + (a.intelligence : ℚ) * (3/2) := by
    nlinarith
  have hs100 : (d.stamina : ℚ) ≤ 100 := by exact_mod_cast hsta
  have hs0 : (0:ℚ) ≤ (d.stamina : ℚ) := Nat.cast_nonneg _
  have hdiv : (d.stamina : ℚ) / ((d.stamina : ℚ) + 100) ≤ 1/2 := by
    rw [div_le_iff₀ (by positivity : (0:ℚ) < (d.stamina : ℚ) + 100)]
    linarith
  generalize hM : (1 : ℚ) - (d.stamina : ℚ) / ((d.stamina : ℚ) + 100) = M
  generalize hC : (if c = true then (9:ℚ)/5 else 1) = C
  generalize hB : (if a.get_village_bonus.1 = Element.none then
      ((j.power : ℚ) + (a.level : ℚ) * 2 + (a.intelligence : ℚ) * (3/2)) * (1 + a.get_village_bonus.2)
    else ((j.power : ℚ) + (a.level : ℚ) * 2 + (a.intelligence : ℚ) * (3/2))) = B
  have hmit : (1:ℚ)/2 ≤ M := by rw [← hM]; linarith
  have hmit0 : (0:ℚ) ≤ M := by linarith
  have hbd : (2:ℚ) ≤ B := by
    rw [← hB]
    have hg2 := village_bonus_nonneg a
    split
    · nlinarith
    · exact hbase
  have hc1 : (1:ℚ) ≤ C := by rw [← hC]; split <;> norm_num
  have hc0 : (0:ℚ) ≤ C := by linarith
  have h1 : (2:ℚ) ≤ B * 1 * C := by nlinarith
  nlinarith

theorem calculate_damage_effect (a d : TempPlayer) (k : String) (c : Bool) (j : Jutsu)
    (hj : JUTSU_LIBRARY k = some j) : (calculate_damage a d k c).2.2.2 = j.effect := by
  simp only [calculate_damage, hj]

theorem calculate_damage_heal (a d : TempPlayer) (k : String) (c : Bool) (j : Jutsu)
    (hj : JUTSU_LIBRARY k = some j) (he : j.effect = some Effect.heal) :
    (calculate_damage a d k c).1 = -|(j.power : ℤ)| := by
  simp only [calculate_damage, hj, he]

theorem calculate_damage_status (a d : TempPlayer) (k : String) (c : Bool) (j : Jutsu)
    (hj : JUTSU_LIBRARY k = some j)
    (he : j.effect = some Effect.evasion_up ∨ j.effect = some Effect.defense_up ∨
      j.effect = some Effect.stun ∨ j.effect = some Effect.accuracy_down) :
    (calculate_damage a d k c).1 = 0 := by
  rcases he with he | he | he | he <;> simp only [calculate_damage, hj, he]

theorem calculate_damage_raw (a d : TempPlayer) (k : String) (c : Bool) (j : Jutsu)
    (hj : JUTSU_LIBRARY k = some j)
    (he : j.effect = Option.none ∨ j.effect = some Effect.dodge ∨ j.effect = some Effect.distract) :
    (calculate_damage a d k c).1 = raw_damage a d j c := by
  rcases he with he | he | he <;> simp only [calculate_damage, hj, he]

theorem calculate_damage_nonneg_of_not_heal (a d : TempPlayer) (k : String) (c : Bool) (j : Jutsu)
    (hj : JUTSU_LIBRARY k = some j) (he : j.effect ≠ some Effect.heal) :
    0 ≤ (calculate_damage a d k c).1 := by
  rcases heff : j.effect with _ | e
  · rw [calculate_damage_raw a d k c j hj (Or.inl heff)]
    exact raw_damage_nonneg a d j c
  · cases e with
    | heal => exact absurd heff he
    | evasion_up => rw [calculate_damage_status a d k c j hj (Or.inl heff)]
    | defense_up => rw [calculate_damage_status a d k c j hj (Or.inr (Or.inl heff))]
    | stun => rw [calculate_damage_status a d k c j hj (Or.inr (Or.inr (Or.inl heff)))]
    | accuracy_down => rw [calculate_damage_status a d k c j hj (Or.inr (Or.inr (Or.inr heff)))]
    | dodge =>
      rw [calculate_damage_raw a d k c j hj (Or.inr (Or.inl heff))]
      exact raw_damage_nonneg a d j c
    | distract =>
      rw [calculate_damage_raw a d k c j hj (Or.inr (Or.inr heff))]
      exact raw_damage_nonneg a d j c

theorem calculate_damage_nonneg_of_effect_none (a d : TempPlayer) (k : String) (c : Bool)
    (he : (calculate_damage a d k c).2.2.2 = Option.none) :
    0 ≤ (calculate_damage a d k c).1 := by
  rcases hL : JUTSU_LIBRARY k with _ | j
  · simp [calculate_damage, hL]
  · have heff : j.effect = Option.none := by
      rw [← calculate_damage_effect a d k c j hL]; exact he
    rw [calculate_damage_raw a d k c j hL (Or.inl heff)]
    exact raw_damage_nonneg a d j c

/-! Claim theorems. -/

/-- C1: in the spec's worked scenario — attacker level 5, intelligence 10,
village Konoha (fire affinity, 15%); ability `fireball` (power 45, element
fire); defender village Suna (wind affinity), stamina 10; no critical —
`calculate_damage` returns exactly 109 damage. -/
theorem c1_scenario_fireball_109 :
    (calculate_damage
      { level := 5, intelligence := 10, speed := 0, stamina := 0, village := some .konoha }
      { level := 1, intelligence := 0, speed := 0, stamina := 10, village := some .suna }
      "fireball" false).1 = 109 := by decide

/-- C8 (counterexample): for `earth_wall` (a `defense_up` status jutsu)
the resolver returns amount `0 ≤ 0` while the effect is not `heal`, so
"amount ≤ 0 exactly when effect == heal" is false as stated. -/
theorem c8_counterexample_status_zero :
    (calculate_damage ⟨1, 0, 0, 0, Option.none⟩ ⟨1, 0, 0, 0, Option.none⟩ "earth_wall" false).1 ≤ 0 ∧
    (calculate_damage ⟨1, 0, 0, 0, Option.none⟩ ⟨1, 0, 0, 0, Option.none⟩ "earth_wall" false).2.2.2 ≠
      some Effect.heal := by decide

/-- C8 (amended): for every library ability and all snapshots, the
resolver's amount is ≥ 0 when the effect is a status tag or absent, ≤ 0
when the effect is `heal`, and strictly negative exactly when the effect
is `heal` with positive power (the sole library heal ability has power
50).  The claim's "amount ≤ 0 iff heal" fails only because status
abilities return exactly 0. -/
theorem c8_amended_sign_of_amount (k : String) (j : Jutsu) (a d : TempPlayer) (c : Bool)
    (hj : JUTSU_LIBRARY k = some j) :
    ((j.effect = some Effect.evasion_up ∨ j.effect = some Effect.defense_up ∨
      j.effect = some Effect.stun ∨ j.effect = some Effect.accuracy_down ∨
      j.effect = Option.none) → 0 ≤ (calculate_damage a d k c).1) ∧
    (j.effect = some Effect.heal → (calculate_damage a d k c).1 ≤ 0) ∧
    ((calculate_damage a d k c).1 < 0 ↔ (j.effect = some Effect.heal ∧ 0 < j.power)) := by
  refine ⟨?_, ?_, ?_⟩
  · intro he
    rcases he with he | he | he | he | he
    · rw [calculate_damage_status a d k c j hj (Or.inl he)]
    · rw [calculate_damage_status a d k c j hj (Or.inr (Or.inl he))]
    · rw [calculate_damage_status a d k c j hj (Or.inr (Or.inr (Or.inl he)))]
    · rw [calculate_damage_status a d k c j hj (Or.inr (Or.inr (Or.inr he)))]
    · rw [calculate_damage_raw a d k c j hj (Or.inl he)]
      exact raw_damage_nonneg a d j c
  · intro he
    rw [calculate_damage_heal a d k c j hj he]
    exact neg_nonpos.mpr (abs_nonneg _)
  · constructor
    · intro hlt
      by_cases he : j.effect = some Effect.heal
      · refine ⟨he, ?_⟩
        rw [calculate_damage_heal a d k c j hj he] at hlt
        by_contra hp
        have hp0 : j.power = 0 := by omega
        simp [hp0] at hlt
      · exact absurd (calculate_damage_nonneg_of_not_heal a d k c j hj he) (by omega)
    · rintro ⟨he, hp⟩
      rw [calculate_damage_heal a d k c j hj he]
      have : (0:ℤ) < (j.power : ℤ) := by exact_mod_cast hp
      rw [abs_of_nonneg (le_of_lt this)]
      omega

/-- C8 (witness): the amended statement instantiated at `chakra_heal`
(the library's sole heal ability) and concrete snapshots. -/
theorem c8_witness_chakra_heal :
    ((some Effect.heal = some Effect.evasion_up ∨ some Effect.heal = some Effect.defense_up ∨
      some Effect.heal = some Effect.stun ∨ some Effect.heal = some Effect.accuracy_down ∨
      (some Effect.heal : Option Effect) = Option.none) →
      0 ≤ (calculate_damage ⟨3, 2, 0, 5, Option.none⟩ ⟨4, 0, 0, 7, Option.none⟩ "chakra_heal" true).1) ∧
    ((some Effect.heal : Option Effect) = some Effect.heal →
      (calculate_damage ⟨3, 2, 0, 5, Option.none⟩ ⟨4, 0, 0, 7, Option.none⟩ "chakra_heal" true).1 ≤ 0) ∧
    ((calculate_damage ⟨3, 2, 0, 5, Option.none⟩ ⟨4, 0, 0, 7, Option.none⟩ "chakra_heal" true).1 < 0 ↔
      ((some Effect.heal : Option Effect) = some Effect.heal ∧
        0 < (50 : ℕ))) :=
  c8_amended_sign_of_amount "chakra_heal"
    { name := "Chakra Heal", power := 50, chakra_cost := 30, element := .none,
      level_required := 8, discovered := true, effect := some .heal }
    ⟨3, 2, 0, 5, Option.none⟩ ⟨4, 0, 0, 7, Option.none⟩ true (by decide)

/-- C10 (counterexample): `substitution` (effect `dodge`) against a
defender with stamina 150 yields amount 0 even though the attacker has
level 1 ≥ 1 — the claim's "strictly positive for any attacker with
level ≥ 1" fails. -/
theorem c10_counterexample_zero_damage :
    (calculate_damage ⟨1, 0, 0, 0, Option.none⟩ ⟨1, 0, 0, 150, Option.none⟩ "substitution" false).1
      = 0 := by decide

/-- C10 (amended): for a library ability whose effect tag is `dodge` or
`distract` (the non-elemental `substitution` and `clone_jutsu`), the
resolver returns the normally computed damage unmodified by the effect
override — non-negative always, and ≥ 1 whenever the attacker has
level ≥ 1 and the defender's stamina is at most 100 (for larger stamina
the mitigated damage can truncate to 0) — yet executing the turn routes
into the effect branch of `battle_animation_flow`, which changes nothing:
no HP change is applied to either participant. -/
theorem c10_amended_dodge_distract (k : String) (j : Jutsu)
    (hj : JUTSU_LIBRARY k = some j)
    (he : j.effect = some Effect.dodge ∨ j.effect = some Effect.distract)
    (helem : j.element = Element.none) :
    (∀ (a d : TempPlayer) (c : Bool),
      (calculate_damage a d k c).1 = raw_damage a d j c ∧
      0 ≤ raw_damage a d j c ∧
      (1 ≤ a.level → d.stamina ≤ 100 → 1 ≤ raw_damage a d j c)) ∧
    (∀ (b : Battle) (uid : ℤ) (c : Bool), (battle_animation_flow b uid k c).1 = b) := by
  constructor
  · intro a d c
    refine ⟨calculate_damage_raw a d k c j hj (Or.inr he), raw_damage_nonneg a d j c, ?_⟩
    intro hlvl hsta
    exact raw_damage_one_le a d j c helem hlvl hsta
  · intro b uid c
    have heff : (calculate_damage (b.get_player_data uid).toTemp
        (b.get_opponent_data uid).toTemp k c).2.2.2 = j.effect :=
      calculate_damage_effect _ _ k c j hj
    rcases he with he | he <;>
      simp only [battle_animation_flow, heff, he]

/-- C10 (witness): the amended statement instantiated at `substitution`;
in particular a level-2 attacker against a stamina-50 defender. -/
theorem c10_witness_substitution :
    ((calculate_damage ⟨2, 0, 0, 50, Option.none⟩ ⟨2, 0, 0, 50, Option.none⟩ "substitution" false).1 =
      raw_damage ⟨2, 0, 0, 50, Option.none⟩ ⟨2, 0, 0, 50, Option.none⟩
        { name := "Substitution Jutsu", power := 0, chakra_cost := 20, element := .none,
          level_required := 3, discovered := true, effect := some .dodge } false ∧
      1 ≤ raw_damage ⟨2, 0, 0, 50, Option.none⟩ ⟨2, 0, 0, 50, Option.none⟩
        { name := "Substitution Jutsu", power := 0, chakra_cost := 20, element := .none,
          level_required := 3, discovered := true, effect := some .dodge } false) ∧
    (battle_animation_flow (Battle.init exProf1 exProf2) 1 "substitution" false).1 =
      Battle.init exProf1 exProf2 := by
  have h := c10_amended_dodge_distract "substitution"
    { name := "Substitution Jutsu", power := 0, chakra_cost := 20, element := .none,
      level_required := 3, discovered := true, effect := some .dodge }
    (by decide) (Or.inl rfl) rfl
  obtain ⟨h1, h2⟩ := h
  refine ⟨⟨(h1 _ _ false).1, (h1 _ _ false).2.2 (by decide) (by decide)⟩, h2 _ 1 false⟩

/-! Helper lemmas about the battle state and the turn pipeline. -/

theorem dictSet_lookup (m : List (String × ℕ)) (k : String) (v : ℕ) :
    (dictSet m k v).lookup k = some v := by
  induction m with
  | nil => simp [dictSet, List.lookup]
  | cons a t ih =>
    by_cases h : a.1 = k
    · simp [dictSet, h, List.lookup]
    · have hb : (k == a.1) = false := by
        simp only [beq_eq_false_iff_ne, ne_eq]
        exact fun hk => h hk.symm
      simp only [dictSet, if_neg h, List.lookup, hb]
      exact ih

theorem switch_turn_meta (b : Battle) :
    (b.switch_turn).player1_id = b.player1_id ∧
    (b.switch_turn).player2_id = b.player2_id ∧
    (b.switch_turn).turn_count = b.turn_count + 1 ∧
    (b.switch_turn).turn = (if b.turn = b.player1_id then b.player2_id else b.player1_id) :=
  ⟨rfl, rfl, rfl, rfl⟩

theorem update_player_resource_meta (b : Battle) (uid : ℤ) (f : ResField) (v : ℤ) :
    (b.update_player_resource uid f v).player1_id = b.player1_id ∧
    (b.update_player_resource uid f v).player2_id = b.player2_id ∧
    (b.update_player_resource uid f v).turn = b.turn ∧
    (b.update_player_resource uid f v).turn_count = b.turn_count := by
  unfold Battle.update_player_resource
  split_ifs <;> simp

theorem flow_meta (b : Battle) (uid : ℤ) (k : String) (c : Bool) :
    (battle_animation_flow b uid k c).1.player1_id = b.player1_id ∧
    (battle_animation_flow b uid k c).1.player2_id = b.player2_id ∧
    (battle_animation_flow b uid k c).1.turn = b.turn ∧
    (battle_animation_flow b uid k c).1.turn_count = b.turn_count := by
  rcases heff : (calculate_damage (b.get_player_data uid).toTemp
      (b.get_opponent_data uid).toTemp k c).2.2.2 with _ | e
  · simp only [battle_animation_flow, heff, Battle.set_opponent_data]
    split_ifs <;> simp
  · cases e <;>
      simp only [battle_animation_flow, heff, Battle.set_player_data] <;>
      first
      | (split_ifs <;> simp)
      | simp

/-- C3 (counterexample): `update_player_resource` — one of the claim's
"battle operations" — performs no bounds check: writing HP 9999 into a
snapshot whose `max_hp` is 1000 stores 9999 verbatim, violating
"current_hp never exceeds max". -/
theorem c3_counterexample_update_exceeds_max :
    ((Battle.init exProf1 exProf2).update_player_resource 1 ResField.current_hp 9999).p1.current_hp >
      ((Battle.init exProf1 exProf2).update_player_resource 1 ResField.current_hp 9999).p1.max_hp := by
  decide

/-- C3 (amended): the turn-resolution flow itself preserves the HP bounds —
starting from snapshots with `0 ≤ current_hp ≤ max_hp`, after
`battle_animation_flow` both snapshots still satisfy them (damage clamps
at 0, heal caps at `max_hp`), chakra and `max_hp` are untouched, and a
damage amount exceeding the defender's HP leaves exactly 0.  The original
claim fails only for the resource-update write, which stores any value
verbatim (see the counterexample). -/
theorem c3_amended_flow_bounds (b : Battle) (uid : ℤ) (k : String) (c : Bool)
    (h1a : 0 ≤ b.p1.current_hp) (h1b : b.p1.current_hp ≤ b.p1.max_hp)
    (h2a : 0 ≤ b.p2.current_hp) (h2b : b.p2.current_hp ≤ b.p2.max_hp) :
    ((0 ≤ (battle_animation_flow b uid k c).1.p1.current_hp ∧
      (battle_animation_flow b uid k c).1.p1.current_hp ≤ b.p1.max_hp) ∧
    (0 ≤ (battle_animation_flow b uid k c).1.p2.current_hp ∧
      (battle_animation_flow b uid k c).1.p2.current_hp ≤ b.p2.max_hp) ∧
    ((battle_animation_flow b uid k c).1.p1.current_chakra = b.p1.current_chakra ∧
      (battle_animation_flow b uid k c).1.p2.current_chakra = b.p2.current_chakra) ∧
    ((battle_animation_flow b uid k c).1.p1.max_hp = b.p1.max_hp ∧
      (battle_animation_flow b uid k c).1.p2.max_hp = b.p2.max_hp)) ∧
    (((calculate_damage (b.get_player_data uid).toTemp (b.get_opponent_data uid).toTemp k c).2.2.2 =
        Option.none ∧
      (b.get_opponent_data uid).current_hp <
        (calculate_damage (b.get_player_data uid).toTemp (b.get_opponent_data uid).toTemp k c).1) →
      ((battle_animation_flow b uid k c).1.get_opponent_data uid).current_hp = 0) := by
  constructor
  · rcases heff : (calculate_damage (b.get_player_data uid).toTemp
        (b.get_opponent_data uid).toTemp k c).2.2.2 with _ | e
    · have hd := calculate_damage_nonneg_of_effect_none (b.get_player_data uid).toTemp
        (b.get_opponent_data uid).toTemp k c heff
      by_cases hu : uid = b.player1_id
      · simp only [battle_animation_flow, heff]
        simp only [Battle.get_player_data, Battle.get_opponent_data, Battle.set_opponent_data,
          if_pos hu] at hd ⊢
        exact ⟨⟨h1a, h1b⟩, ⟨le_max_left _ _, max_le (le_trans h2a h2b) (by linarith)⟩,
          ⟨by trivial, by trivial⟩, ⟨by trivial, by trivial⟩⟩
      · simp only [battle_animation_flow, heff]
        simp only [Battle.get_player_data, Battle.get_opponent_data, Battle.set_opponent_data,
          if_neg hu] at hd ⊢
        exact ⟨⟨le_max_left _ _, max_le (le_trans h1a h1b) (by linarith)⟩, ⟨h2a, h2b⟩,
          ⟨by trivial, by trivial⟩, ⟨by trivial, by trivial⟩⟩
    · cases e
      case heal =>
        by_cases hu : uid = b.player1_id
        · simp only [battle_animation_flow, heff]
          simp only [Battle.get_player_data, Battle.get_opponent_data, Battle.set_player_data,
            if_pos hu]
          exact ⟨⟨le_min (le_trans h1a h1b) (add_nonneg h1a (abs_nonneg _)), min_le_left _ _⟩,
            ⟨h2a, h2b⟩, ⟨by trivial, by trivial⟩, ⟨by trivial, by trivial⟩⟩
        · simp only [battle_animation_flow, heff]
          simp only [Battle.get_player_data, Battle.get_opponent_data, Battle.set_player_data,
            if_neg hu]
          exact ⟨⟨h1a, h1b⟩,
            ⟨le_min (le_trans h2a h2b) (add_nonneg h2a (abs_nonneg _)), min_le_left _ _⟩,
            ⟨by trivial, by trivial⟩, ⟨by trivial, by trivial⟩⟩
      case defense_up =>
        by_cases hu : uid = b.player1_id
        · simp only [battle_animation_flow, heff]
          simp only [Battle.get_player_data, Battle.set_player_data, if_pos hu]
          exact ⟨⟨h1a, h1b⟩, ⟨h2a, h2b⟩, ⟨by trivial, by trivial⟩, ⟨by trivial, by trivial⟩⟩
        · simp only [battle_animation_flow, heff]
          simp only [Battle.get_player_data, Battle.set_player_data, if_neg hu]
          exact ⟨⟨h1a, h1b⟩, ⟨h2a, h2b⟩, ⟨by trivial, by trivial⟩, ⟨by trivial, by trivial⟩⟩
      all_goals
        simp only [battle_animation_flow, heff]
        exact ⟨⟨h1a, h1b⟩, ⟨h2a, h2b⟩, ⟨by trivial, by trivial⟩, ⟨by trivial, by trivial⟩⟩
  · rintro ⟨hnone, hlt⟩
    have hd := calculate_damage_nonneg_of_effect_none (b.get_player_data uid).toTemp
      (b.get_opponent_data uid).toTemp k c hnone
    by_cases hu : uid = b.player1_id
    · simp only [battle_animation_flow, hnone]
      simp only [Battle.get_player_data, Battle.get_opponent_data, Battle.set_opponent_data,
        if_pos hu] at hd hlt ⊢
      exact max_eq_left (by linarith)
    · simp only [battle_animation_flow, hnone]
      simp only [Battle.get_player_data, Battle.get_opponent_data, Battle.set_opponent_data,
        if_neg hu] at hd hlt ⊢
      exact max_eq_left (by linarith)

/-- C3 (witness): the amended bounds instantiated for a fresh fixture
battle and a `fireball` turn by player 1. -/
theorem c3_witness_fireball_turn :
    ((0 ≤ (battle_animation_flow (Battle.init exProf1 exProf2) 1 "fireball" false).1.p1.current_hp ∧
      (battle_animation_flow (Battle.init exProf1 exProf2) 1 "fireball" false).1.p1.current_hp ≤
        (Battle.init exProf1 exProf2).p1.max_hp) ∧
    (0 ≤ (battle_animation_flow (Battle.init exProf1 exProf2) 1 "fireball" false).1.p2.current_hp ∧
      (battle_animation_flow (Battle.init exProf1 exProf2) 1 "fireball" false).1.p2.current_hp ≤
        (Battle.init exProf1 exProf2).p2.max_hp) ∧
    ((battle_animation_flow (Battle.init exProf1 exProf2) 1 "fireball" false).1.p1.current_chakra =
        (Battle.init exProf1 exProf2).p1.current_chakra ∧
      (battle_animation_flow (Battle.init exProf1 exProf2) 1 "fireball" false).1.p2.current_chakra =
        (Battle.init exProf1 exProf2).p2.current_chakra) ∧
    ((battle_animation_flow (Battle.init exProf1 exProf2) 1 "fireball" false).1.p1.max_hp =
        (Battle.init exProf1 exProf2).p1.max_hp ∧
      (battle_animation_flow (Battle.init exProf1 exProf2) 1 "fireball" false).1.p2.max_hp =
        (Battle.init exProf1 exProf2).p2.max_hp)) ∧
    (((calculate_damage ((Battle.init exProf1 exProf2).get_player_data 1).toTemp
        ((Battle.init exProf1 exProf2).get_opponent_data 1).toTemp "fireball" false).2.2.2 =
        Option.none ∧
      ((Battle.init exProf1 exProf2).get_opponent_data 1).current_hp <
        (calculate_damage ((Battle.init exProf1 exProf2).get_player_data 1).toTemp
          ((Battle.init exProf1 exProf2).get_opponent_data 1).toTemp "fireball" false).1) →
      ((battle_animation_flow (Battle.init exProf1 exProf2) 1 "fireball" false).1.get_opponent_data
        1).current_hp = 0) :=
  c3_amended_flow_bounds (Battle.init exProf1 exProf2) 1 "fireball" false
    (by decide) (by decide) (by decide) (by decide)

/-- C9 (counterexample): the resource-update write is not bounds-checked:
writing chakra 555 into the fixture battle's second snapshot (max chakra
100) stores 555 verbatim, exceeding the max. -/
theorem c9_counterexample_chakra_exceeds_max :
    ((Battle.init exProf1 exProf2).update_player_resource 2 ResField.current_chakra 555).p2.current_chakra >
      ((Battle.init exProf1 exProf2).update_player_resource 2 ResField.current_chakra 555).p2.max_chakra := by
  decide

/-- C9 (amended): `update_player_resource` is key-checked but not
bounds-checked: for a participant identity it stores the given value into
the addressed snapshot field verbatim (and leaves the other snapshot
untouched); for a non-participant identity it is a no-op; and `setRes`
itself stores exactly the given value. -/
theorem c9_amended_update_verbatim (b : Battle) (uid : ℤ) (f : ResField) (v : ℤ) :
    (uid = b.player1_id →
      (b.update_player_resource uid f v).p1 = b.p1.setRes f v ∧
      (b.update_player_resource uid f v).p2 = b.p2) ∧
    (uid ≠ b.player1_id → uid = b.player2_id →
      (b.update_player_resource uid f v).p1 = b.p1 ∧
      (b.update_player_resource uid f v).p2 = b.p2.setRes f v) ∧
    (uid ≠ b.player1_id → uid ≠ b.player2_id →
      b.update_player_resource uid f v = b) ∧
    (∀ s : Snapshot, (s.setRes ResField.current_hp v).current_hp = v ∧
      (s.setRes ResField.current_chakra v).current_chakra = v) := by
  refine ⟨?_, ?_, ?_, ?_⟩
  · intro h
    simp [Battle.update_player_resource, h]
  · intro h1 h2
    subst h2
    simp [Battle.update_player_resource, h1]
  · intro h1 h2
    simp [Battle.update_player_resource, h1, h2]
  · intro s
    exact ⟨rfl, rfl⟩

/-- C9 (witness): the amended statement instantiated for the fixture
battle, player 2, the chakra field and value 555. -/
theorem c9_witness_update_instance :
    ((2 : ℤ) = (Battle.init exProf1 exProf2).player1_id →
      ((Battle.init exProf1 exProf2).update_player_resource 2 ResField.current_chakra 555).p1 =
        (Battle.init exProf1 exProf2).p1.setRes ResField.current_chakra 555 ∧
      ((Battle.init exProf1 exProf2).update_player_resource 2 ResField.current_chakra 555).p2 =
        (Battle.init exProf1 exProf2).p2) ∧
    ((2 : ℤ) ≠ (Battle.init exProf1 exProf2).player1_id →
      (2 : ℤ) = (Battle.init exProf1 exProf2).player2_id →
      ((Battle.init exProf1 exProf2).update_player_resource 2 ResField.current_chakra 555).p1 =
        (Battle.init exProf1 exProf2).p1 ∧
      ((Battle.init exProf1 exProf2).update_player_resource 2 ResField.current_chakra 555).p2 =
        (Battle.init exProf1 exProf2).p2.setRes ResField.current_chakra 555) ∧
    ((2 : ℤ) ≠ (Battle.init exProf1 exProf2).player1_id →
      (2 : ℤ) ≠ (Battle.init exProf1 exProf2).player2_id →
      (Battle.init exProf1 exProf2).update_player_resource 2 ResField.current_chakra 555 =
        Battle.init exProf1 exProf2) ∧
    (∀ s : Snapshot, (s.setRes ResField.current_hp 555).current_hp = 555 ∧
      (s.setRes ResField.current_chakra 555).current_chakra = 555) :=
  c9_amended_update_verbatim (Battle.init exProf1 exProf2) 2 ResField.current_chakra 555

/-- C6 (counterexample): a turn with `hidden_mist` (status tag
`evasion_up`) records nothing in the actor's status-effect map — the
effect branch only handles `defense_up`; the battle state is completely
unchanged. -/
theorem c6_counterexample_evasion_not_recorded :
    (battle_animation_flow (Battle.init exProf1 exProf2) 1 "hidden_mist" false).1 =
      Battle.init exProf1 exProf2 ∧
    ((battle_animation_flow (Battle.init exProf1 exProf2) 1 "hidden_mist"
      false).1.p1.battle_effects).lookup "evasion_up" = Option.none := by
  decide

/-- C6 (amended): of the four status tags only `defense_up` is recorded:
a turn whose ability carries `defense_up` stores the key `"defense_up"`
with the fixed counter 3 in the actor's status-effect map, while a turn
whose ability carries `evasion_up`, `stun` or `accuracy_down` leaves the
battle state entirely unchanged (no map entry, no counter). -/
theorem c6_amended_only_defense_up_recorded (b : Battle) (uid : ℤ) (k : String) (c : Bool)
    (j : Jutsu) (hj : JUTSU_LIBRARY k = some j) :
    (j.effect = some Effect.defense_up →
      (((battle_animation_flow b uid k c).1.get_player_data uid).battle_effects).lookup
        "defense_up" = some 3) ∧
    ((j.effect = some Effect.evasion_up ∨ j.effect = some Effect.stun ∨
      j.effect = some Effect.accuracy_down) →
      (battle_animation_flow b uid k c).1 = b) := by
  have heff : (calculate_damage (b.get_player_data uid).toTemp
      (b.get_opponent_data uid).toTemp k c).2.2.2 = j.effect :=
    calculate_damage_effect _ _ k c j hj
  constructor
  · intro he
    rw [he] at heff
    by_cases hu : uid = b.player1_id
    · simp only [battle_animation_flow, heff]
      simp only [Battle.get_player_data, Battle.set_player_data, if_pos hu]
      exact dictSet_lookup _ _ _
    · simp only [battle_animation_flow, heff]
      simp only [Battle.get_player_data, Battle.set_player_data, if_neg hu]
      exact dictSet_lookup _ _ _
  · intro he
    rcases he with he | he | he <;> rw [he] at heff <;>
      simp only [battle_animation_flow, heff]

/-- C6 (witness): the amended statement instantiated at `earth_wall`
(`defense_up`, recorded with counter 3) on the fixture battle. -/
theorem c6_witness_earth_wall :
    ((some Effect.defense_up = some Effect.defense_up →
      (((battle_animation_flow (Battle.init exProf1 exProf2) 1 "earth_wall"
        false).1.get_player_data 1).battle_effects).lookup "defense_up" = some 3) ∧
    ((some Effect.defense_up = some Effect.evasion_up ∨
      some Effect.defense_up = some Effect.stun ∨
      some Effect.defense_up = some Effect.accuracy_down) →
      (battle_animation_flow (Battle.init exProf1 exProf2) 1 "earth_wall" false).1 =
        Battle.init exProf1 exProf2)) :=
  c6_amended_only_defense_up_recorded (Battle.init exProf1 exProf2) 1 "earth_wall" false
    { name := "Earth Style Wall", power := 0, chakra_cost := 35, element := .earth,
      level_required := 10, discovered := true, effect := some .defense_up }
    (by decide)

/-- C4: a turn submission by a participant who does not hold the turn is
rejected (`NotYourTurn`) with the game state returned completely
unchanged — in particular both snapshots' HP and chakra, `turn_count` and
`turn_holder` are untouched. -/
theorem c4_not_your_turn_no_mutation (st : GameState) (uid : ℤ) (k : String) (c f : Bool)
    (p : Profile) (b : Battle)
    (hP : st.getProfile uid = some p) (hB : st.battleStore = some b)
    (hT : b.turn ≠ uid) :
    use_jutsu st uid k c f = (st, .err .NotYourTurn) := by
  simp only [use_jutsu, hP, hB, if_pos hT]

/-- C4 (witness): in the fixture battle it is player 1's turn, so a
submission by player 2 is rejected with no state change. -/
theorem c4_witness_player2_rejected :
    use_jutsu exSt 2 "water_bullet" false false = (exSt, .err .NotYourTurn) :=
  c4_not_your_turn_no_mutation exSt 2 "water_bullet" false false exProf2
    (Battle.init exProf1 exProf2) (by decide) rfl (by decide)

/-- C5: a turn submission whose ability costs more chakra than the actor
has — with all earlier checks passing — is rejected as
`InsufficientResource`, and the game state (profile store and battle
snapshot, hence the actor's chakra in both) is returned unchanged. -/
theorem c5_insufficient_chakra_rejected (st : GameState) (uid : ℤ) (k : String) (c f : Bool)
    (p : Profile) (b : Battle) (j : Jutsu)
    (hP : st.getProfile uid = some p) (hB : st.battleStore = some b)
    (hT : b.turn = uid) (hL : JUTSU_LIBRARY k = some j) (hK : k ∈ p.known_jutsus)
    (hC : p.current_chakra < (j.chakra_cost : ℤ)) :
    use_jutsu st uid k c f = (st, .err .InsufficientResource) := by
  simp only [use_jutsu, hP, hB, hL]
  rw [if_neg (fun h => h hT), if_neg (fun h => h hK), if_pos hC]

/-- C5 (witness): with the challenger's chakra lowered to 20, a `fireball`
(cost 25) submission is rejected as `InsufficientResource` and the state
is unchanged. -/
theorem c5_witness_low_chakra :
    use_jutsu exStLowChakra 1 "fireball" false false =
      (exStLowChakra, .err .InsufficientResource) :=
  c5_insufficient_chakra_rejected exStLowChakra 1 "fireball" false false
    { exProf1 with current_chakra := 20 } (Battle.init exProf1 exProf2)
    { name := "Fireball Jutsu", power := 45, chakra_cost := 25, element := .fire,
      level_required := 5, discovered := true }
    (by decide) rfl (by decide) (by decide) (by decide) (by decide)

theorem getProfile_saveProfile (st : GameState) (uid : ℤ) (p p' : Profile)
    (h : st.getProfile uid = some p) (hid : p'.user_id = p.user_id) :
    (st.saveProfile p').getProfile uid = some p' := by
  obtain ⟨l, bs⟩ := st
  unfold GameState.getProfile at h
  unfold GameState.getProfile GameState.saveProfile
  simp only at h ⊢
  have hpid : p.user_id = uid := by
    have := List.find?_some h
    simpa using this
  induction l with
  | nil => simp at h
  | cons a t ih =>
    by_cases ha : a.user_id = uid
    · rw [List.find?_cons_of_pos _ (by simpa using ha)] at h
      obtain rfl : a = p := by simpa using h
      simp only [List.map_cons]
      rw [if_pos (by simp [hid])]
      exact List.find?_cons_of_pos _ (by simp [hid, hpid])
    · rw [List.find?_cons_of_neg _ (by simpa using ha)] at h
      simp only [List.map_cons]
      rw [if_neg (by
        simp only [beq_iff_eq]
        intro hcontra
        exact ha (by rw [hcontra, hid, hpid]))]
      rw [List.find?_cons_of_neg _ (by simpa using ha)]
      exact ih h

/-- C7 (counterexample): when `battle_animation_flow` raises after the
precondition checks pass, the handler does not leave the persisted state
untouched: it deducts and saves the actor's chakra (100 → 75 here), then
force-terminates the battle (the stored battle state is deleted), while
reporting the turn as failed. -/
theorem c7_counterexample_exec_failure_persists :
    (use_jutsu exSt 1 "fireball" false true).1.battleStore = Option.none ∧
    ((use_jutsu exSt 1 "fireball" false true).1.getProfile 1).map Profile.current_chakra =
      some 75 ∧
    (exSt.getProfile 1).map Profile.current_chakra = some 100 ∧
    (use_jutsu exSt 1 "fireball" false true).2 = .err .ExecFailed := by decide

/-- C7 (amended): if an exception is raised during turn resolution after
all precondition checks pass, the handler reports the turn as failed
(`ExecFailed`) but does not leave the previously-persisted state
untouched: the actor's chakra deduction has already been saved to the
profile store, and the battle is force-terminated — its persisted state
is deleted rather than retained for a retry. -/
theorem c7_amended_exec_failure (st : GameState) (uid : ℤ) (k : String) (c : Bool)
    (p oppo : Profile) (b : Battle) (j : Jutsu)
    (hP : st.getProfile uid = some p) (hB : st.battleStore = some b)
    (hT : b.turn = uid) (hL : JUTSU_LIBRARY k = some j) (hK : k ∈ p.known_jutsus)
    (hC : (j.chakra_cost : ℤ) ≤ p.current_chakra)
    (hO : st.getProfile (if uid = b.player1_id then b.player2_id else b.player1_id) =
      some oppo) :
    use_jutsu st uid k c true =
      ({ st.saveProfile { p with current_chakra := p.current_chakra - (j.chakra_cost : ℤ) } with
          battleStore := Option.none }, .err .ExecFailed) ∧
    (use_jutsu st uid k c true).1.getProfile uid =
      some { p with current_chakra := p.current_chakra - (j.chakra_cost : ℤ) } ∧
    (use_jutsu st uid k c true).1.battleStore = Option.none := by
  have hmain : use_jutsu st uid k c true =
      ({ st.saveProfile { p with current_chakra := p.current_chakra - (j.chakra_cost : ℤ) } with
          battleStore := Option.none }, .err .ExecFailed) := by
    simp only [use_jutsu, hP, hB, hL, hO]
    rw [if_neg (fun h => h hT), if_neg (fun h => h hK), if_neg (not_lt.mpr hC)]
    rfl
  refine ⟨hmain, ?_, ?_⟩
  · rw [hmain]
    exact getProfile_saveProfile st uid p _ hP rfl
  · rw [hmain]

/-- C7 (witness): the amended statement instantiated on the fixture state
with a `fireball` turn whose resolution raises. -/
theorem c7_witness_exec_failure :
    use_jutsu exSt 1 "fireball" false true =
      ({ exSt.saveProfile
          { exProf1 with current_chakra := exProf1.current_chakra - ((25 : ℕ) : ℤ) } with
          battleStore := Option.none }, .err .ExecFailed) ∧
    (use_jutsu exSt 1 "fireball" false true).1.getProfile 1 =
      some { exProf1 with current_chakra := exProf1.current_chakra - ((25 : ℕ) : ℤ) } ∧
    (use_jutsu exSt 1 "fireball" false true).1.battleStore = Option.none :=
  c7_amended_exec_failure exSt 1 "fireball" false exProf1 exProf2
    (Battle.init exProf1 exProf2)
    { name := "Fireball Jutsu", power := 45, chakra_cost := 25, element := .fire,
      level_required := 5, discovered := true }
    (by decide) rfl (by decide) (by decide) (by decide) (by decide) (by decide)

theorem use_jutsu_ok_none {st st' : GameState} {uid : ℤ} {k : String} {c : Bool}
    (h : use_jutsu st uid k c false = (st', .ok Option.none)) :
    ∃ b b', st.battleStore = some b ∧ st'.battleStore = some b' ∧
      b'.player1_id = b.player1_id ∧ b'.player2_id = b.player2_id ∧
      b'.turn_count = b.turn_count + 1 ∧
      b'.turn = (if b.turn = b.player1_id then b.player2_id else b.player1_id) := by
  rcases hP : st.getProfile uid with _ | player
  · simp [use_jutsu, hP] at h
  rcases hB : st.battleStore with _ | b
  · simp [use_jutsu, hP, hB] at h
  by_cases hT : b.turn ≠ uid
  · simp [use_jutsu, hP, hB, hT] at h
  rcases hL : JUTSU_LIBRARY k with _ | j
  · simp [use_jutsu, hP, hB, hT, hL] at h
  by_cases hK : k ∉ player.known_jutsus
  · simp [use_jutsu, hP, hB, hT, hL, hK] at h
  by_cases hC : player.current_chakra < (j.chakra_cost : ℤ)
  · simp [use_jutsu, hP, hB, hT, hL, hK, hC] at h
  rcases hO : st.getProfile (if uid = b.player1_id then b.player2_id else b.player1_id)
    with _ | oppo
  · simp [use_jutsu, hP, hB, hT, hL, hK, hC, hO] at h
  rcases hW : (battle_animation_flow
      (b.update_player_resource uid ResField.current_chakra
        (player.current_chakra - (j.chakra_cost : ℤ)))
      uid k c).2 with _ | w
  · simp only [use_jutsu, hP, hB, hL, hO, if_neg hT, if_neg hK, if_neg hC,
      Bool.false_eq_true, if_false, hW] at h
    obtain ⟨hst', -⟩ := Prod.mk.injEq .. ▸ h
    have hu := update_player_resource_meta b uid ResField.current_chakra
      (player.current_chakra - (j.chakra_cost : ℤ))
    have hf := flow_meta
      (b.update_player_resource uid ResField.current_chakra
        (player.current_chakra - (j.chakra_cost : ℤ))) uid k c
    refine ⟨b, (battle_animation_flow
        (b.update_player_resource uid ResField.current_chakra
          (player.current_chakra - (j.chakra_cost : ℤ))) uid k c).1.switch_turn,
      rfl, ?_, ?_, ?_, ?_, ?_⟩
    · rw [← hst']
    · exact hf.1.trans hu.1
    · exact (hf.2.1).trans hu.2.1
    · show (battle_animation_flow _ uid k c).1.turn_count + 1 = b.turn_count + 1
      rw [hf.2.2.2, hu.2.2.2]
    · show (if (battle_animation_flow _ uid k c).1.turn =
          (battle_animation_flow _ uid k c).1.player1_id then
            (battle_animation_flow _ uid k c).1.player2_id
          else (battle_animation_flow _ uid k c).1.player1_id) =
          (if b.turn = b.player1_id then b.player2_id else b.player1_id)
      rw [hf.1, hf.2.1, hf.2.2.1, hu.1, hu.2.1, hu.2.2.1]
  · simp [use_jutsu, hP, hB, hT, hL, hK, hC, hO, hW] at h

/-- C2: (i) a fresh battle starts with `turn_count = 1`; (ii) after N
consecutive successful turn submissions without a winner the stored
battle's `turn_count` equals the initial count plus N (so N + 1 from a
fresh battle) and in particular never decreases, with the participant ids
unchanged; (iii) each single successful winner-free submission hands the
turn to the other participant — for distinct participant ids the
`turn_holder` strictly alternates, always remaining one of the two
identities. -/
theorem c2_turn_count_monotone_alternation :
    (∀ p q : Profile, (Battle.init p q).turn_count = 1) ∧
    (∀ (moves : List (ℤ × String × Bool)) (st st' : GameState) (b : Battle),
      st.battleStore = some b → runTurns st moves = some st' →
      ∃ b', st'.battleStore = some b' ∧
        b'.player1_id = b.player1_id ∧ b'.player2_id = b.player2_id ∧
        b'.turn_count = b.turn_count + moves.length ∧
        b.turn_count ≤ b'.turn_count) ∧
    (∀ (st st' : GameState) (uid : ℤ) (k : String) (c : Bool) (b b' : Battle),
      use_jutsu st uid k c false = (st', .ok Option.none) →
      st.battleStore = some b → st'.battleStore = some b' →
      b.player1_id ≠ b.player2_id →
      b'.turn ≠ b.turn ∧ (b'.turn = b.player1_id ∨ b'.turn = b.player2_id)) := by
  refine ⟨fun p q => rfl, ?_, ?_⟩
  · intro moves
    induction moves with
    | nil =>
      intro st st' b hB hR
      simp only [runTurns, Option.some.injEq] at hR
      subst hR
      exact ⟨b, hB, rfl, rfl, by simp, le_refl _⟩
    | cons m ms ih =>
      intro st st' b hB hR
      rcases hU : use_jutsu st m.1 m.2.1 m.2.2 false with ⟨st1, r⟩
      rw [runTurns, hU] at hR
      match r, hR with
      | .ok Option.none, hR =>
        obtain ⟨b0, b1, hB0, hB1, hp1, hp2, hcnt, -⟩ := use_jutsu_ok_none hU
        obtain rfl : b0 = b := by
          have := hB0.symm.trans hB
          exact (Option.some.injEq ..).mp this
        obtain ⟨b', hB', hq1, hq2, hqcnt, -⟩ := ih st1 st' b1 hB1 hR
        refine ⟨b', hB', hq1.trans hp1, hq2.trans hp2, ?_, ?_⟩
        · rw [hqcnt, hcnt]
          simp [List.length_cons]
          omega
        · rw [hqcnt, hcnt]
          omega
  · intro st st' uid k c b b' hU hB hB' hne
    obtain ⟨b0, b1, hB0, hB1, hp1, hp2, -, hturn⟩ := use_jutsu_ok_none hU
    obtain rfl : b = b0 := by
      have := hB.symm.trans hB0
      exact (Option.some.injEq ..).mp this
    obtain rfl : b' = b1 := by
      have := hB'.symm.trans hB1
      exact (Option.some.injEq ..).mp this
    rw [hturn]
    by_cases ht : b.turn = b.player1_id
    · rw [if_pos ht, ht]
      exact ⟨fun hh => hne hh.symm, Or.inr rfl⟩
    · rw [if_neg ht]
      exact ⟨fun hh => ht hh.symm, Or.inl rfl⟩

/-- C2 (witness): on the fixture battle, the fresh `turn_count` is 1;
after the two successful moves of `exMoves` it is 1 + 2; and the first
single move hands the turn from player 1 to player 2. -/
theorem c2_witness_two_turns :
    (Battle.init exProf1 exProf2).turn_count = 1 ∧
    (∃ b', exSt2.battleStore = some b' ∧
      b'.player1_id = (Battle.init exProf1 exProf2).player1_id ∧
      b'.player2_id = (Battle.init exProf1 exProf2).player2_id ∧
      b'.turn_count = (Battle.init exProf1 exProf2).turn_count + exMoves.length ∧
      (Battle.init exProf1 exProf2).turn_count ≤ b'.turn_count) ∧
    (exBattle1.turn ≠ (Battle.init exProf1 exProf2).turn ∧
      (exBattle1.turn = (Battle.init exProf1 exProf2).player1_id ∨
        exBattle1.turn = (Battle.init exProf1 exProf2).player2_id)) :=
  ⟨c2_turn_count_monotone_alternation.1 exProf1 exProf2,
    c2_turn_count_monotone_alternation.2.1 exMoves exSt exSt2
      (Battle.init exProf1 exProf2) rfl (by decide),
    c2_turn_count_monotone_alternation.2.2 exSt exSt1 1 "fireball" false
      (Battle.init exProf1 exProf2) exBattle1 (by decide) rfl (by decide) (by decide)⟩

end NarutoBot
